import Mathlib

/-!
Verification of the cMAF-System device-control core against its
natural-language specification.

This file gives a shallow embedding, in Lean 4, of the parts of the
Python source relevant to the spec's testable properties:

* the CRC-16/MODBUS checksum shared by all drivers
  (`hardware/syringe_pump.py` `_crc16`, `hardware/relay_board.py`
  `_crc16_modbus`);
* the syringe/axis motion-command builder (`syringe_pump.py`
  `_build_command`, `_steps_from_volume`);
* the status-poll retry loop (`syringe_pump.py` `read_status`);
* the two concrete step sequences and their step-execution engines
  (`domain/sequences.py` `run_maf_sampling_sequence`, `run_sequence2`);
* the controller state machine (`domain/controller.py`: `start_sequence`,
  `stop_sequence`, `home_all`, `_run_sequence` completion, `_set_relay`,
  `set_all_relays`, `move_axis`, `home_axis`, `_assert_horizontal_allowed`).

Machine integers are modelled as `Nat`/`Int` with explicit bounds where
Python would raise; Python floats are modelled as exact rationals (the
decimal literals of the source read as `ℚ`); fallible Python code returns
`Except`/`Option`.  Python dynamic errors that the claims depend on
(`AttributeError` on a missing dataclass field, `UnboundLocalError` on a
read-before-assignment local) are modelled explicitly where they occur.
-/

namespace CMAF

/-! ## CRC-16/MODBUS (hardware/syringe_pump.py `_crc16`,
    hardware/relay_board.py `_crc16_modbus`) -/

/-- One shift iteration of the CRC-16/MODBUS inner loop
(`if crc & 0x01: crc = (crc >> 1) ^ 0xA001 else: crc >>= 1`). -/
def crcShift (crc : Nat) : Nat :=
  if crc % 2 = 1 then (crc / 2) ^^^ 0xA001 else crc / 2

/-- Absorb one byte: `crc ^= b` then eight shift iterations
(`SyringePump._crc16` body). -/
def crcByte (crc b : Nat) : Nat :=
  crcShift^[8] (crc ^^^ b)

/-- `SyringePump._crc16`: fold over the bytes, initial value `0xFFFF`.
Returns the 16-bit CRC as a `Nat`. -/
def crc16 (data : List Nat) : Nat :=
  data.foldl crcByte 0xFFFF

/-- `RelayBoard._crc16_modbus` (and `RotaryValve._crc16`): textually the
same algorithm written with a conditional expression
(`crc = (crc >> 1) ^ 0xA001 if (crc & 1) else crc >> 1`). -/
def crc16_modbus (data : List Nat) : Nat :=
  data.foldl (fun crc b =>
    (fun c => crcShift (crcShift (crcShift (crcShift
      (crcShift (crcShift (crcShift (crcShift c)))))))) (crc ^^^ b)) 0xFFFF

/-- `struct.pack("<H", crc)`: the CRC transmitted little-endian as two
bytes, appended to every frame. -/
def crcBytesOf (c : Nat) : List Nat := [c % 256, c / 256 % 256]

/-- The two checksum bytes appended to a frame. -/
def crcBytes (data : List Nat) : List Nat := crcBytesOf (crc16 data)

/-- The response-validation step used on received frames
(`read_status`: `self._crc16(resp[:-2]) != resp[-2:]` rejected):
recompute the CRC over all bytes except the trailing two and compare
with the trailing two bytes. -/
def verifyFrame (resp : List Nat) : Bool :=
  crcBytes (resp.take (resp.length - 2)) == resp.drop (resp.length - 2)

theorem crcShift_iterate_eight (c : Nat) :
    crcShift^[8] c
      = crcShift (crcShift (crcShift (crcShift
          (crcShift (crcShift (crcShift (crcShift c))))))) := by
  rw [show (8 : Nat) = 1 + 1 + 1 + 1 + 1 + 1 + 1 + 1 from rfl]
  simp [Function.iterate_add_apply]

theorem crc16_modbus_eq_crc16 (data : List Nat) :
    crc16_modbus data = crc16 data := by
  unfold crc16_modbus crc16 crcByte
  rw [funext fun crc => funext fun b => crcShift_iterate_eight (crc ^^^ b)]

theorem crcBytes_length (data : List Nat) : (crcBytes data).length = 2 := rfl

/-- **C4** — For every frame (arbitrary byte string), appending the
CRC-16/MODBUS checksum (polynomial `0xA001`, initial value `0xFFFF`,
byte-at-a-time XOR then 8 shifts, transmitted little-endian) yields a
frame accepted by the verification procedure:
`verify (frame ++ crc frame)` holds; and the relay-board implementation
of the checksum agrees byte-for-byte with the syringe-drive one, so the
property covers frames built by any driver. -/
theorem crc_append_verifies (frame : List Nat) :
    verifyFrame (frame ++ crcBytes frame) = true
      ∧ crcBytesOf (crc16_modbus frame) = crcBytes frame := by
  constructor
  · unfold verifyFrame
    have hlen : (frame ++ crcBytes frame).length - 2 = frame.length := by
      simp [List.length_append, crcBytes_length]
    rw [hlen]
    have htake : (frame ++ crcBytes frame).take frame.length = frame :=
      List.take_left frame (crcBytes frame)
    have hdrop : (frame ++ crcBytes frame).drop frame.length = crcBytes frame :=
      List.drop_left frame (crcBytes frame)
    rw [htake, hdrop]
    exact beq_self_eq_true _
  · rw [crc16_modbus_eq_crc16]; rfl

/-! ## Python numeric conversions -/

/-- Python `int(x)` applied to a real value: truncation toward zero. -/
def pyInt (q : ℚ) : Int := if 0 ≤ q then ⌊q⌋ else ⌈q⌉

/-- Python `round(x)` (the operation named by the spec's wording):
round half to even. -/
def pyRound (q : ℚ) : Int :=
  let f := ⌊q⌋
  let r := q - f
  if r < 1/2 then f
  else if 1/2 < r then f + 1
  else if f % 2 = 0 then f else f + 1

/-- Python `val.to_bytes(4, byteorder="big", signed=True)`:
big-endian two's-complement encoding; `OverflowError` (here `none`)
outside `[-2^31, 2^31)`. -/
def toBytes4BESigned (v : Int) : Option (List Nat) :=
  if -(2 ^ 31) ≤ v ∧ v < 2 ^ 31 then
    let u := (v % (2 ^ 32 : Int)).toNat
    some [u / 2 ^ 24 % 256, u / 2 ^ 16 % 256, u / 2 ^ 8 % 256, u % 256]
  else none

/-! ## Syringe/axis drive command builder
    (hardware/syringe_pump.py `_build_command`, `_steps_from_volume`) -/

/-- `infra/config.py` `SyringeConfig` — the fields consumed by the drive
protocol.  (`AxisConfig` carries the same three fields for axis drives;
the serial-transport fields `port`, `baudrate`, `timeout` belong to the
transport layer and are not part of the frame contents.) -/
structure SyringeConfig where
  address : Nat
  steps_per_ml : ℚ
  velocity_calib : ℚ

/-- The `SyringeConfig` defaults of `infra/config.py`
(`address = 0x4C`, `steps_per_ml = 304457.5314`,
`velocity_calib = 304.45753`), decimal literals read exactly. -/
def defaultSyringeConfig : SyringeConfig :=
  { address := 0x4C
    steps_per_ml := 3044575314 / 10000
    velocity_calib := 30445753 / 100000 }

/-- `SyringePump._steps_from_volume`:
`int(volume_ml * self.config.steps_per_ml)`. -/
def stepsFromVolume (cfg : SyringeConfig) (volume_ml : ℚ) : Int :=
  pyInt (volume_ml * cfg.steps_per_ml)

/-- The clamp on the first line of `_build_command`:
`flow_rate_ml_per_min = max(min(flow_rate_ml_per_min, 15), -15)`. -/
def clampFlow (f : ℚ) : ℚ := max (min f 15) (-15)

/-- The 21-byte `base_command` bytearray of `_build_command` after the
two slice assignments: fixed header/flag bytes, the velocity word at
offsets 13–16, the target-position word at offsets 17–20. -/
def baseCommand (addr : Nat) (velocity_bytes steps_bytes : List Nat) : List Nat :=
  [addr, 0x10, 0xA7, 0x9E, 0x00, 0x07, 0x0E, 0x01,
   0x00, 0x00, 0x03, 0x03, 0xE8] ++ velocity_bytes ++ steps_bytes

/-- `SyringePump._build_command`: clamp the flow to `[-15, 15]`, reject
`|volume_ml| > 180` (`ValueError`), truncate the velocity
(`int(velocity_calib * flow)`) and the target steps
(`_steps_from_volume`), encode both as 4 signed big-endian bytes
(`OverflowError` when a word does not fit), and append the CRC to the
21-byte payload. -/
def buildCommand (cfg : SyringeConfig) (volume_ml flow_rate_ml_per_min : ℚ) :
    Except String (List Nat) :=
  if 180 < |volume_ml| then
    .error "Volume must not exceed 180 mL"
  else
    match toBytes4BESigned (pyInt (cfg.velocity_calib * clampFlow flow_rate_ml_per_min)),
        toBytes4BESigned (stepsFromVolume cfg volume_ml) with
    | some velocity_bytes, some steps_bytes =>
        .ok (baseCommand cfg.address velocity_bytes steps_bytes
              ++ crcBytes (baseCommand cfg.address velocity_bytes steps_bytes))
    | _, _ => .error "OverflowError"

theorem toBytes4BESigned_length {v : Int} {bs : List Nat}
    (h : toBytes4BESigned v = some bs) : bs.length = 4 := by
  unfold toBytes4BESigned at h
  split at h
  · cases h; rfl
  · cases h

theorem clampFlow_three_halves : clampFlow (3/2) = 3/2 := by
  unfold clampFlow
  rw [min_eq_left (by norm_num), max_eq_left (by norm_num)]

/-- The command `_build_command` produces at `volume_ml = 1`,
`flow_ml_min = 1.5` under the default calibration: velocity word
`int(304.45753 * 1.5) = 456 = [0,0,1,200]`, position word
`int(1 * 304457.5314) = 304457 = [0,4,165,73]`. -/
theorem buildCommand_default_eval :
    buildCommand defaultSyringeConfig 1 (3/2)
      = .ok (baseCommand 0x4C [0, 0, 1, 200] [0, 4, 165, 73]
          ++ crcBytes (baseCommand 0x4C [0, 0, 1, 200] [0, 4, 165, 73])) := by
  have hvel : pyInt (defaultSyringeConfig.velocity_calib * clampFlow (3/2)) = 456 := by
    rw [clampFlow_three_halves]
    unfold pyInt defaultSyringeConfig
    rw [if_pos (by norm_num)]
    norm_num
  have hsteps : stepsFromVolume defaultSyringeConfig 1 = 304457 := by
    unfold stepsFromVolume pyInt defaultSyringeConfig
    rw [if_pos (by norm_num)]
    norm_num
  unfold buildCommand
  rw [if_neg (by norm_num), hvel, hsteps]
  rw [show toBytes4BESigned 456 = some [0, 0, 1, 200] by decide]
  rw [show toBytes4BESigned 304457 = some [0, 4, 165, 73] by decide]
  rfl

/-- **C5, counterexample** — With the default syringe calibration
(`velocity_calib = 304.45753`) at `volume_ml = 1`, `flow_ml_min = 1.5`,
the velocity word of the built command encodes
`int(304.45753 * 1.5) = int(456.686295) = 456` (bytes `[0,0,1,200]`),
whereas the claim's `round(velocity_calibration * clamp(flow,-15,15))`
is `457` (bytes `[0,0,1,201]`): the code truncates toward zero, it does
not round. -/
theorem buildCommand_velocity_not_round :
    buildCommand defaultSyringeConfig 1 (3/2)
        = .ok (baseCommand 0x4C [0, 0, 1, 200] [0, 4, 165, 73]
            ++ crcBytes (baseCommand 0x4C [0, 0, 1, 200] [0, 4, 165, 73]))
      ∧ pyRound (defaultSyringeConfig.velocity_calib * clampFlow (3/2)) = 457
      ∧ toBytes4BESigned 457 = some [0, 0, 1, 201]
      ∧ ((baseCommand 0x4C [0, 0, 1, 200] [0, 4, 165, 73]).drop 13).take 4
          ≠ [0, 0, 1, 201] := by
  refine ⟨buildCommand_default_eval, ?_, by decide, by decide⟩
  rw [clampFlow_three_halves]
  unfold pyRound defaultSyringeConfig
  norm_num

/-- **C5 (amended)** — For every motion command built by
`_build_command` with inputs `volume_ml` and `flow_ml_min`, the 4-byte
signed big-endian velocity word (bytes 13–16) equals the truncation
toward zero (Python `int`) of
`velocity_calibration * clamp(flow_ml_min, -15, 15)`, and the 4-byte
signed big-endian target-position word (bytes 17–20) equals the
truncation toward zero of `volume_ml * steps_per_ml`. -/
theorem buildCommand_words_eq_trunc (cfg : SyringeConfig)
    (volume_ml flow : ℚ) (cmd : List Nat)
    (h : buildCommand cfg volume_ml flow = .ok cmd) :
    toBytes4BESigned (pyInt (cfg.velocity_calib * clampFlow flow))
        = some ((cmd.drop 13).take 4)
      ∧ toBytes4BESigned (pyInt (volume_ml * cfg.steps_per_ml))
        = some ((cmd.drop 17).take 4) := by
  unfold buildCommand stepsFromVolume at h
  split at h
  · exact absurd h (by simp)
  · split at h
    next velocity_bytes steps_bytes hv hs =>
      have hvl := toBytes4BESigned_length hv
      have hsl := toBytes4BESigned_length hs
      injection h with h
      subst h
      constructor
      · rw [hv]
        congr 1
        show velocity_bytes
          = ((velocity_bytes ++ steps_bytes)
              ++ crcBytes (baseCommand cfg.address velocity_bytes steps_bytes)).take 4
        rw [List.append_assoc, List.take_left' hvl]
      · rw [hs]
        congr 1
        show steps_bytes
          = (((velocity_bytes ++ steps_bytes)
              ++ crcBytes (baseCommand cfg.address velocity_bytes steps_bytes)).drop 4).take 4
        rw [List.append_assoc, List.drop_left' hvl, List.take_left' hsl]
    next hne =>
      exact absurd h (by simp)

/-- Witness for `buildCommand_words_eq_trunc` at
`cfg = defaultSyringeConfig`, `volume_ml = 1`, `flow = 3/2`. -/
theorem buildCommand_words_eq_trunc_witness :
    toBytes4BESigned (pyInt (defaultSyringeConfig.velocity_calib * clampFlow (3/2)))
        = some (((baseCommand 0x4C [0, 0, 1, 200] [0, 4, 165, 73]
            ++ crcBytes (baseCommand 0x4C [0, 0, 1, 200] [0, 4, 165, 73])).drop 13).take 4)
      ∧ toBytes4BESigned (pyInt (1 * defaultSyringeConfig.steps_per_ml))
        = some (((baseCommand 0x4C [0, 0, 1, 200] [0, 4, 165, 73]
            ++ crcBytes (baseCommand 0x4C [0, 0, 1, 200] [0, 4, 165, 73])).drop 17).take 4) :=
  buildCommand_words_eq_trunc defaultSyringeConfig 1 (3/2) _ buildCommand_default_eval

/-! ## Sequence engine (domain/sequences.py:
    `run_maf_sampling_sequence`, `run_sequence2`) -/

/-- Outcome of invoking one external callable (an adapter method, the
before-step observer, or a preset move): normal return, a raised
`Exception` carrying its message, or a raised `InterruptedError` (the
interruptible sleeper's stop signal). -/
inductive CallOutcome where
  | ok
  | exc (msg : String)
  | interrupted

/-- The actions the two concrete step lists invoke through the adapters
handed to `run_maf_sampling_sequence` / `run_sequence2` (`relays.on/off`,
`_set_port`, `_syringe_move` with its flow override already resolved,
the axis preset callbacks, `init`, and the step-28 loop turning relays
1..8 off). -/
inductive SeqAction where
  | init
  | relayOn (ch : Nat)
  | relayOff (ch : Nat)
  | relayAllOff
  | setPort (p : Nat)
  | syringeMove (target_ml flow_ml_min : ℚ)
  | moveHorizontalToFiltering
  | moveHorizontalHome
  | moveVerticalClosePlate
  | moveVerticalOpenPlate

/-- One step as passed to `_run_step`: label, optional action, and the
`wait_after` argument (defaulting to `MIN_STEP_DELAY = 0.5`). -/
structure SeqStep where
  label : String
  action : Option SeqAction
  wait_after : ℚ

/-- Observable trace of a sequence run: the `_log` stream, the durations
handed to `sleeper.sleep`, and whether `SequenceAbort` is unwinding. -/
structure SeqTrace where
  log : List String
  sleeps : List ℚ
  aborted : Bool

/-- Modelled from the spec: `domain/sleeper.py` (`InterruptibleSleeper`)
is not under src.  Per §4.4 the sleep wakes immediately with an
`InterruptedError` when the stop flag becomes true, and otherwise sleeps
the full requested duration; with a constant stop flag the sleep is
interrupted exactly when the flag is set. -/
def sleeperSleep (stop : Bool) : CallOutcome :=
  if stop then .interrupted else .ok

/-- `_wait_block(duration)` (identical in both sequences):
`duration = max(duration, 0.0)`; a zero duration returns at once;
otherwise sleep interruptibly, converting `InterruptedError` into
`SequenceAbort`. -/
def waitBlock (stop : Bool) (t : SeqTrace) (duration : ℚ) : SeqTrace :=
  let d := max duration 0
  if d = 0 then t
  else
    match sleeperSleep stop with
    | .interrupted => { t with aborted := true }
    | _ => { t with sleeps := t.sleeps ++ [d] }

/-- `_run_step` of `run_maf_sampling_sequence`: before-step observer
(generic failure logs a warning, `InterruptedError` raises
`SequenceAbort`), stop-flag check, label log, best-effort action
(generic failure logs a warning and skips the "completed" line,
`InterruptedError` raises `SequenceAbort`), then
`_wait_block(max(wait_after, MIN_STEP_DELAY))`. -/
def runStep1 (stop : Bool) (before : String → CallOutcome)
    (act : SeqAction → CallOutcome) (t : SeqTrace) (s : SeqStep) : SeqTrace :=
  if t.aborted then t
  else
    let t1 :=
      match before s.label with
      | .interrupted => { t with aborted := true }
      | .exc e =>
          { t with log := t.log
              ++ ["[WARN] Step prompt failed (" ++ s.label ++ "): " ++ e] }
      | .ok => t
    if t1.aborted then t1
    else if stop then
      { t1 with
          log := t1.log ++ ["[INFO] MAF sampling sequence aborted by STOP."]
          aborted := true }
    else
      let t2 := { t1 with log := t1.log ++ [s.label] }
      let t3 :=
        match s.action with
        | none => { t2 with log := t2.log ++ [s.label ++ " completed"] }
        | some a =>
            match act a with
            | .ok => { t2 with log := t2.log ++ [s.label ++ " completed"] }
            | .exc e =>
                { t2 with log := t2.log
                    ++ ["[WARN] " ++ s.label ++ " failed: " ++ e] }
            | .interrupted => { t2 with aborted := true }
      if t3.aborted then t3
      else waitBlock stop t3 (max s.wait_after (1/2))

/-- `_run_step` of `run_sequence2`: any exception from the before-step
observer raises `SequenceAbort`; stop-flag check; best-effort action
where every exception (including `InterruptedError`, whose Python `str`
is empty) logs a warning and continues; then `_wait_block(wait_after)`
with no floor applied inside the engine. -/
def runStep2 (stop : Bool) (before : String → CallOutcome)
    (act : SeqAction → CallOutcome) (t : SeqTrace) (s : SeqStep) : SeqTrace :=
  if t.aborted then t
  else
    match before s.label with
    | .ok =>
        if stop then
          { t with
              log := t.log ++ ["[INFO] Sequence 2 aborted by STOP."]
              aborted := true }
        else
          let t2 := { t with log := t.log ++ [s.label] }
          let t3 :=
            match s.action with
            | none => { t2 with log := t2.log ++ [s.label ++ " completed"] }
            | some a =>
                match act a with
                | .ok => { t2 with log := t2.log ++ [s.label ++ " completed"] }
                | .exc e =>
                    { t2 with log := t2.log
                        ++ ["[WARN] " ++ s.label ++ " failed: " ++ e] }
                | .interrupted =>
                    { t2 with log := t2.log
                        ++ ["[WARN] " ++ s.label ++ " failed: "] }
          waitBlock stop t3 s.wait_after
    | _ => { t with aborted := true }

/-- The 32 `_run_step` invocations of `run_maf_sampling_sequence`, in
source order: steps 1–26, the repeat of steps 16–19, then steps 27–28.
`wait_after_relay5_s`/`wait_after_relay6_s` are the function's keyword
parameters (default `1.0`); steps 3 and 6 pass
`max(wait_after_relayN_s, MIN_STEP_DELAY)`; every `_syringe_move` call
passes an explicit flow override. -/
def mafSteps (wait_after_relay5_s wait_after_relay6_s : ℚ) : List SeqStep :=
  [⟨"Step 1: Initialization", some .init, 1/2⟩,
   ⟨"Step 2: Relay 5 ON (load MAF filter)", some (.relayOn 5), 1/2⟩,
   ⟨"Step 3: Wait after Relay 5 ON", none, max wait_after_relay5_s (1/2)⟩,
   ⟨"Step 4: Relay 5 OFF", some (.relayOff 5), 1/2⟩,
   ⟨"Step 5: Relay 6 ON (push MAF in position)", some (.relayOn 6), 1/2⟩,
   ⟨"Step 6: Wait after Relay 6 ON", none, max wait_after_relay6_s (1/2)⟩,
   ⟨"Step 7: Relay 6 OFF", some (.relayOff 6), 1/2⟩,
   ⟨"Step 8: Horizontal axis to FILTERING position (below plate)",
      some .moveHorizontalToFiltering, 1/2⟩,
   ⟨"Step 9: Close plate (vertical axis)", some .moveVerticalClosePlate, 1/2⟩,
   ⟨"Step 10: Rotary Valve Port 4 (AIR)", some (.setPort 4), 1/2⟩,
   ⟨"Step 11: Syringe suck AIR to 0.1 mL", some (.syringeMove (1/10) 1), 1/2⟩,
   ⟨"Step 12: Rotary Valve Port 2 (SAMPLE)", some (.setPort 2), 1/2⟩,
   ⟨"Step 13: Syringe suck SAMPLE to 1.5 mL (0.1 air + 1.5 sample)",
      some (.syringeMove (16/10) 1), 1/2⟩,
   ⟨"Step 14: Rotary Valve Port 5 (MAF)", some (.setPort 5), 1/2⟩,
   ⟨"Step 15: Syringe inject SAMPLE (to 0.0 mL)", some (.syringeMove 0 (2/10)), 1/2⟩,
   ⟨"Step 16: Rotary Valve Port 4 (AIR)", some (.setPort 4), 1/2⟩,
   ⟨"Step 17: Syringe suck AIR to 2.0 mL", some (.syringeMove 2 2), 1/2⟩,
   ⟨"Step 18: Rotary Valve Port 5 (MAF)", some (.setPort 5), 1/2⟩,
   ⟨"Step 19: Syringe inject AIR (to 0.0 mL)", some (.syringeMove 0 1), 1/2⟩,
   ⟨"Step 20: Rotary Valve Port 4 (AIR)", some (.setPort 4), 1/2⟩,
   ⟨"Step 21: Syringe suck AIR to 0.1 mL", some (.syringeMove (1/10) 1), 1/2⟩,
   ⟨"Step 22: Rotary Valve Port 3 (H2O)", some (.setPort 3), 1/2⟩,
   ⟨"Step 23: Syringe suck H2O to 1.3 mL (0.1 air + 1.2 H2O)",
      some (.syringeMove (13/10) 1), 1/2⟩,
   ⟨"Step 24: Rotary Valve Port 5 (MAF)", some (.setPort 5), 1/2⟩,
   ⟨"Step 25: Relay 2 ON (Valve 2 OPEN)", some (.relayOn 2), 1/2⟩,
   ⟨"Step 26: Syringe inject to 0.0 mL", some (.syringeMove 0 1), 1/2⟩,
   ⟨"Step 16: Rotary Valve Port 4 (AIR)", some (.setPort 4), 1/2⟩,
   ⟨"Step 17: Syringe suck AIR to 2.0 mL", some (.syringeMove 2 2), 1/2⟩,
   ⟨"Step 18: Rotary Valve Port 5 (MAF)", some (.setPort 5), 1/2⟩,
   ⟨"Step 19: Syringe inject AIR (to 0.0 mL)", some (.syringeMove 0 1), 1/2⟩,
   ⟨"Step 27: Re-initialization / Homing", some .init, 1/2⟩,
   ⟨"Step 28: Turn ALL relays OFF", some .relayAllOff, 1/2⟩]

/-- `run_maf_sampling_sequence`: start banner, the 32 steps, then either
the abort banner (when `SequenceAbort` unwound) or the completion
banner. -/
def runMafSampling (stop : Bool) (before : String → CallOutcome)
    (act : SeqAction → CallOutcome)
    (wait_after_relay5_s wait_after_relay6_s : ℚ) : SeqTrace :=
  let t0 : SeqTrace :=
    { log := ["=== MAF sampling sequence start ==="], sleeps := [], aborted := false }
  let t := (mafSteps wait_after_relay5_s wait_after_relay6_s).foldl
      (runStep1 stop before act) t0
  if t.aborted then
    { t with log := t.log ++ ["=== MAF sampling sequence aborted ==="] }
  else
    { t with log := t.log ++ ["=== MAF sampling sequence complete ==="] }

/-- The 50 `_run_step` invocations of `run_sequence2` in source order:
steps 1–24, the two-iteration repeated cycle (labels `Step 25.i` …
`Step 28.i` for `i = 0, 1`), then steps 29–46.  Every `_syringe_move`
uses the default `syringe_flow_ml_min = 2.0`; steps 17 and 23 pass
`wait_after = 1.0`, all other steps use the default `0.5`. -/
def seq2Steps : List SeqStep :=
  [⟨"Step 1: Move X-Axis to FILTERING", some .moveHorizontalToFiltering, 1/2⟩,
   ⟨"Step 2: Close filter (vertical axis)", some .moveVerticalClosePlate, 1/2⟩,
   ⟨"Step 3: Rotary Valve -> Port 3", some (.setPort 3), 1/2⟩,
   ⟨"Step 4: Syringe -> 2.5 mL", some (.syringeMove (5/2) 2), 1/2⟩,
   ⟨"Step 5: Rotary Valve -> Port 1", some (.setPort 1), 1/2⟩,
   ⟨"Step 6: Syringe -> 0.0 mL", some (.syringeMove 0 2), 1/2⟩,
   ⟨"Step 7: Rotary Valve -> Port 3", some (.setPort 3), 1/2⟩,
   ⟨"Step 8: Syringe -> 2.5 mL", some (.syringeMove (5/2) 2), 1/2⟩,
   ⟨"Step 9: Rotary Valve -> Port 5", some (.setPort 5), 1/2⟩,
   ⟨"Step 10: Syringe -> 0.0 mL", some (.syringeMove 0 2), 1/2⟩,
   ⟨"Step 11: Rotary Valve -> Port 4", some (.setPort 4), 1/2⟩,
   ⟨"Step 12: Syringe -> 2.0 mL", some (.syringeMove 2 2), 1/2⟩,
   ⟨"Step 13: Rotary Valve -> Port 5", some (.setPort 5), 1/2⟩,
   ⟨"Step 14: Syringe -> 0.0 mL", some (.syringeMove 0 2), 1/2⟩,
   ⟨"Step 15: Valve 1 ON", some (.relayOn 1), 1/2⟩,
   ⟨"Step 16: Syringe -> 2.5 mL", some (.syringeMove (5/2) 2), 1/2⟩,
   ⟨"Step 17: Optional wait", none, 1⟩,
   ⟨"Step 18: Valve 1 OFF", some (.relayOff 1), 1/2⟩,
   ⟨"Step 19: Syringe -> 0.0 mL", some (.syringeMove 0 2), 1/2⟩,
   ⟨"Step 20: Rotary Valve -> Port 6", some (.setPort 6), 1/2⟩,
   ⟨"Step 21: Syringe -> 2.5 mL", some (.syringeMove (5/2) 2), 1/2⟩,
   ⟨"Step 22: Rotary Valve -> Port 1", some (.setPort 1), 1/2⟩,
   ⟨"Step 23: Optional wait", none, 1⟩,
   ⟨"Step 24: Syringe -> 0.0 mL", some (.syringeMove 0 2), 1/2⟩,
   ⟨"Step 25.0: Rotary Valve -> Port 3", some (.setPort 3), 1/2⟩,
   ⟨"Step 26.0: Syringe -> 2.5 mL", some (.syringeMove (5/2) 2), 1/2⟩,
   ⟨"Step 27.0: Rotary Valve -> Port 5", some (.setPort 5), 1/2⟩,
   ⟨"Step 28.0: Syringe -> 0.0 mL", some (.syringeMove 0 2), 1/2⟩,
   ⟨"Step 25.1: Rotary Valve -> Port 3", some (.setPort 3), 1/2⟩,
   ⟨"Step 26.1: Syringe -> 2.5 mL", some (.syringeMove (5/2) 2), 1/2⟩,
   ⟨"Step 27.1: Rotary Valve -> Port 5", some (.setPort 5), 1/2⟩,
   ⟨"Step 28.1: Syringe -> 0.0 mL", some (.syringeMove 0 2), 1/2⟩,
   ⟨"Step 29: Rotary Valve -> Port 3", some (.setPort 3), 1/2⟩,
   ⟨"Step 30: Syringe -> 1.0 mL", some (.syringeMove 1 2), 1/2⟩,
   ⟨"Step 31: Rotary Valve -> Port 5", some (.setPort 5), 1/2⟩,
   ⟨"Step 32: Valve 2 ON", some (.relayOn 2), 1/2⟩,
   ⟨"Step 33: Syringe -> 0.0 mL", some (.syringeMove 0 2), 1/2⟩,
   ⟨"Step 34: Valve 2 OFF", some (.relayOff 2), 1/2⟩,
   ⟨"Step 35: Rotary Valve -> Port 4", some (.setPort 4), 1/2⟩,
   ⟨"Step 36: Syringe -> 2.5 mL", some (.syringeMove (5/2) 2), 1/2⟩,
   ⟨"Step 37: Rotary Valve -> Port 5", some (.setPort 5), 1/2⟩,
   ⟨"Step 38: Syringe -> 0.0 mL", some (.syringeMove 0 2), 1/2⟩,
   ⟨"Step 39: Rotary Valve -> Port 4", some (.setPort 4), 1/2⟩,
   ⟨"Step 40: Syringe -> 1.0 mL", some (.syringeMove 1 2), 1/2⟩,
   ⟨"Step 41: Rotary Valve -> Port 5", some (.setPort 5), 1/2⟩,
   ⟨"Step 42: Valve 2 ON", some (.relayOn 2), 1/2⟩,
   ⟨"Step 43: Syringe -> 0.0 mL", some (.syringeMove 0 2), 1/2⟩,
   ⟨"Step 44: Valve 2 OFF", some (.relayOff 2), 1/2⟩,
   ⟨"Step 45: Open filter", some .moveVerticalOpenPlate, 1/2⟩,
   ⟨"Step 46: Move X-Axis HOME", some .moveHorizontalHome, 1/2⟩]

/-- `run_sequence2`: start banner, the 50 steps, then the abort banner or
the completion banner. -/
def runSequence2 (stop : Bool) (before : String → CallOutcome)
    (act : SeqAction → CallOutcome) : SeqTrace :=
  let t0 : SeqTrace :=
    { log := ["=== Sequence 2 start ==="], sleeps := [], aborted := false }
  let t := seq2Steps.foldl (runStep2 stop before act) t0
  if t.aborted then
    { t with log := t.log ++ ["=== Sequence 2 aborted ==="] }
  else
    { t with log := t.log ++ ["=== Sequence 2 complete ==="] }

/-! ### Engine lemmas -/

theorem waitBlock_of_pos (d : ℚ) (hd : 0 < d) (t : SeqTrace) :
    waitBlock false t d = { t with sleeps := t.sleeps ++ [d] } := by
  unfold waitBlock sleeperSleep
  rw [max_eq_left hd.le]
  rw [if_neg hd.ne']
  rfl

/-- A step of the MAF engine under a clear stop flag with a succeeding
observer and a succeeding (or absent) action: log the label and its
"completed" line and sleep `max(wait_after, MIN_STEP_DELAY)`. -/
theorem runStep1_allOk (before : String → CallOutcome)
    (act : SeqAction → CallOutcome)
    (hb : ∀ l, before l = .ok) (ha : ∀ a, act a = .ok)
    (t : SeqTrace) (s : SeqStep) (h : t.aborted = false) :
    runStep1 false before act t s =
      { log := t.log ++ [s.label, s.label ++ " completed"]
        sleeps := t.sleeps ++ [max s.wait_after (1/2)]
        aborted := false } := by
  unfold runStep1
  rw [hb s.label]
  cases hact : s.action with
  | none =>
      cases t
      simp_all [List.append_assoc]
      exact waitBlock_of_pos _ (lt_of_lt_of_le (by norm_num) (le_max_right _ _)) _
  | some a =>
      cases t
      simp_all [ha, List.append_assoc]
      exact waitBlock_of_pos _ (lt_of_lt_of_le (by norm_num) (le_max_right _ _)) _

theorem foldl_runStep1_allOk (before : String → CallOutcome)
    (act : SeqAction → CallOutcome)
    (hb : ∀ l, before l = .ok) (ha : ∀ a, act a = .ok) :
    ∀ (steps : List SeqStep) (t : SeqTrace), t.aborted = false →
      steps.foldl (runStep1 false before act) t =
        { log := t.log
            ++ steps.flatMap (fun s => [s.label, s.label ++ " completed"])
          sleeps := t.sleeps ++ steps.map (fun s => max s.wait_after (1/2))
          aborted := false } := by
  intro steps
  induction steps with
  | nil =>
      intro t h
      cases t
      simp_all
  | cons s rest ih =>
      intro t h
      rw [List.foldl_cons, runStep1_allOk before act hb ha t s h, ih _ rfl]
      simp [List.append_assoc]

/-- A step of the Sequence-2 engine under a clear stop flag with a
succeeding observer, a succeeding (or absent) action and a positive
requested wait: log the label and its "completed" line and sleep exactly
`wait_after` (no floor). -/
theorem runStep2_allOk (before : String → CallOutcome)
    (act : SeqAction → CallOutcome)
    (hb : ∀ l, before l = .ok) (ha : ∀ a, act a = .ok)
    (t : SeqTrace) (s : SeqStep) (h : t.aborted = false)
    (hw : 0 < s.wait_after) :
    runStep2 false before act t s =
      { log := t.log ++ [s.label, s.label ++ " completed"]
        sleeps := t.sleeps ++ [s.wait_after]
        aborted := false } := by
  unfold runStep2
  rw [hb s.label]
  cases hact : s.action with
  | none =>
      cases t
      simp_all [List.append_assoc]
      exact waitBlock_of_pos _ hw _
  | some a =>
      cases t
      simp_all [ha, List.append_assoc]
      exact waitBlock_of_pos _ hw _

theorem foldl_runStep2_allOk (before : String → CallOutcome)
    (act : SeqAction → CallOutcome)
    (hb : ∀ l, before l = .ok) (ha : ∀ a, act a = .ok) :
    ∀ (steps : List SeqStep), (∀ s ∈ steps, 0 < s.wait_after) →
      ∀ (t : SeqTrace), t.aborted = false →
      steps.foldl (runStep2 false before act) t =
        { log := t.log
            ++ steps.flatMap (fun s => [s.label, s.label ++ " completed"])
          sleeps := t.sleeps ++ steps.map (fun s => s.wait_after)
          aborted := false } := by
  intro steps
  induction steps with
  | nil =>
      intro _ t h
      cases t
      simp_all
  | cons s rest ih =>
      intro hws t h
      rw [List.foldl_cons,
          runStep2_allOk before act hb ha t s h (hws s (List.mem_cons_self s rest)),
          ih (fun x hx => hws x (List.mem_cons_of_mem s hx)) _ rfl]
      simp [List.append_assoc]

/-- The 28 distinct step labels of the MAF sampling sequence, in the
documented order (labels 16–19 are re-executed once but appear here
once, at their first occurrence). -/
def mafDocumentedLabels : List String :=
  ["Step 1: Initialization",
   "Step 2: Relay 5 ON (load MAF filter)",
   "Step 3: Wait after Relay 5 ON",
   "Step 4: Relay 5 OFF",
   "Step 5: Relay 6 ON (push MAF in position)",
   "Step 6: Wait after Relay 6 ON",
   "Step 7: Relay 6 OFF",
   "Step 8: Horizontal axis to FILTERING position (below plate)",
   "Step 9: Close plate (vertical axis)",
   "Step 10: Rotary Valve Port 4 (AIR)",
   "Step 11: Syringe suck AIR to 0.1 mL",
   "Step 12: Rotary Valve Port 2 (SAMPLE)",
   "Step 13: Syringe suck SAMPLE to 1.5 mL (0.1 air + 1.5 sample)",
   "Step 14: Rotary Valve Port 5 (MAF)",
   "Step 15: Syringe inject SAMPLE (to 0.0 mL)",
   "Step 16: Rotary Valve Port 4 (AIR)",
   "Step 17: Syringe suck AIR to 2.0 mL",
   "Step 18: Rotary Valve Port 5 (MAF)",
   "Step 19: Syringe inject AIR (to 0.0 mL)",
   "Step 20: Rotary Valve Port 4 (AIR)",
   "Step 21: Syringe suck AIR to 0.1 mL",
   "Step 22: Rotary Valve Port 3 (H2O)",
   "Step 23: Syringe suck H2O to 1.3 mL (0.1 air + 1.2 H2O)",
   "Step 24: Rotary Valve Port 5 (MAF)",
   "Step 25: Relay 2 ON (Valve 2 OPEN)",
   "Step 26: Syringe inject to 0.0 mL",
   "Step 27: Re-initialization / Homing",
   "Step 28: Turn ALL relays OFF"]

/-- **C6** — Running the MAF sampling sequence with adapters that always
succeed and a clear stop flag produces the start banner, then every
executed step's label immediately followed by its "<label> completed"
log entry (in source order: steps 1–26, the repeated 16–19 block, 27,
28), and the final "complete" banner; the distinct step labels, in
first-occurrence order, are exactly the 28 documented ones. -/
theorem maf_sampling_run_labels :
    (runMafSampling false (fun _ => .ok) (fun _ => .ok) 1 1).log
        = "=== MAF sampling sequence start ==="
            :: ((mafSteps 1 1).flatMap fun s => [s.label, s.label ++ " completed"])
            ++ ["=== MAF sampling sequence complete ==="]
      ∧ ((mafSteps 1 1).map SeqStep.label).eraseDups = mafDocumentedLabels
      ∧ mafDocumentedLabels.length = 28
      ∧ mafDocumentedLabels.Nodup := by
  refine ⟨?_, by decide, by decide, by decide⟩
  simp only [runMafSampling]
  rw [foldl_runStep1_allOk _ _ (fun _ => rfl) (fun _ => rfl) (mafSteps 1 1)
        { log := ["=== MAF sampling sequence start ==="], sleeps := [], aborted := false }
        rfl]
  rfl

theorem seq2Steps_wait_ge : ∀ s ∈ seq2Steps, (1/2 : ℚ) ≤ s.wait_after := by
  intro s hs
  fin_cases hs <;> norm_num

theorem seq2Steps_wait_pos : ∀ s ∈ seq2Steps, (0 : ℚ) < s.wait_after :=
  fun s hs => lt_of_lt_of_le (by norm_num) (seq2Steps_wait_ge s hs)

/-- **C8** — For every step of both concrete sequences run to
completion, the duration handed to the interruptible sleeper after the
step equals `max(requested wait, 0.5 s)`: the MAF engine applies the
`MIN_STEP_DELAY` floor to every request, and every Sequence-2 step
requests at least `0.5 s` (its two "Optional wait" steps request `1.0`),
so its sleeps too equal the floored requests, step for step. -/
theorem sequences_sleep_floor :
    (runMafSampling false (fun _ => .ok) (fun _ => .ok) 1 1).sleeps
        = (mafSteps 1 1).map (fun s => max s.wait_after (1/2))
      ∧ (runSequence2 false (fun _ => .ok) (fun _ => .ok)).sleeps
        = seq2Steps.map (fun s => max s.wait_after (1/2)) := by
  constructor
  · simp only [runMafSampling]
    rw [foldl_runStep1_allOk _ _ (fun _ => rfl) (fun _ => rfl) (mafSteps 1 1)
          { log := ["=== MAF sampling sequence start ==="], sleeps := [], aborted := false }
          rfl]
    rfl
  · simp only [runSequence2]
    rw [foldl_runStep2_allOk _ _ (fun _ => rfl) (fun _ => rfl)
          seq2Steps seq2Steps_wait_pos
          { log := ["=== Sequence 2 start ==="], sleeps := [], aborted := false }
          rfl]
    show seq2Steps.map (fun s => s.wait_after) = _
    exact List.map_congr_left
      fun s hs => (max_eq_left (seq2Steps_wait_ge s hs)).symm

/-! ## Status polling (hardware/syringe_pump.py `read_status`) -/

/-- One attempted serial transaction of the `read_status` retry loop:
either the transport raised (open/write/read failure), or a raw byte
string was read (`ser.read(19)` returns at most 19 bytes, possibly
fewer). -/
inductive AttemptOutcome where
  | transportError (msg : String)
  | response (resp : List Nat)

/-- `int.from_bytes(bs, "big")`. -/
def natFromBytesBE (bs : List Nat) : Nat :=
  bs.foldl (fun acc b => acc * 256 + b) 0

/-- `int.from_bytes(bs, "big", signed=True)`. -/
def intFromBytesBESigned (bs : List Nat) : Int :=
  let u := natFromBytesBE bs
  if u < 2 ^ (8 * bs.length - 1) then (u : Int)
  else (u : Int) - 2 ^ (8 * bs.length)

/-- Python `round(x, 4)` (used for `flow_ml_min`): round half to even at
the fourth decimal. -/
def pyRound4 (q : ℚ) : ℚ := (pyRound (q * 10000) : ℚ) / 10000

/-- The decoded DDS5 status dict `read_status` returns on success. -/
structure MotionStatus where
  sdw : Nat
  mode : Nat
  busy : Nat
  standstill : Nat
  vel_ok : Nat
  pos_ok : Nat
  actual_velocity : Int
  actual_position : Int
  volume_ml : ℚ
  flow_ml_min : ℚ

/-- The decode of a validated 19-byte status response (`read_status`
after the three checks): status double-word from bytes 3–6 (bit 8 busy,
bit 12 standstill, bit 14 velocity-ok, bit 15 position-ok, bits 24–26
mode), signed actual velocity from bytes 9–12, signed actual position
from bytes 13–16, and the derived volume and flow. -/
def decodeStatus (cfg : SyringeConfig) (resp : List Nat) : MotionStatus :=
  let sdw := natFromBytesBE ((resp.drop 3).take 4)
  let actual_velocity := intFromBytesBESigned ((resp.drop 9).take 4)
  let actual_position := intFromBytesBESigned ((resp.drop 13).take 4)
  { sdw := sdw
    mode := (sdw >>> 24) &&& 7
    busy := (sdw >>> 8) &&& 1
    standstill := (sdw >>> 12) &&& 1
    vel_ok := (sdw >>> 14) &&& 1
    pos_ok := (sdw >>> 15) &&& 1
    actual_velocity := actual_velocity
    actual_position := actual_position
    volume_ml := (actual_position : ℚ) / cfg.steps_per_ml
    flow_ml_min := pyRound4 ((actual_velocity : ℚ) / cfg.velocity_calib) }

/-- The three response checks of `read_status` (each `continue`s the
retry loop on failure): exact length 19, echoed header
`[address, 0x03, 0x0E]`, and a verifying CRC over all bytes except the
trailing two. -/
def validStatusResponse (addr : Nat) (resp : List Nat) : Bool :=
  resp.length == 19
    && (resp.getD 0 0 == addr && resp.getD 1 0 == 0x03 && resp.getD 2 0 == 0x0E)
    && (crcBytes (resp.take (resp.length - 2)) == resp.drop (resp.length - 2))

/-- The `while tries < max_tries` loop of `read_status` over the oracle
of successive transaction outcomes: a transport error or an invalid
response consumes one try and retries; a valid response is decoded and
returned; an exhausted try budget (or oracle) yields `None`. -/
def readStatusLoop (cfg : SyringeConfig) :
    Nat → List AttemptOutcome → Option MotionStatus
  | 0, _ => none
  | _ + 1, [] => none
  | n + 1, .transportError _ :: rest => readStatusLoop cfg n rest
  | n + 1, .response resp :: rest =>
      if validStatusResponse cfg.address resp then some (decodeStatus cfg resp)
      else readStatusLoop cfg n rest

/-- `read_status` with its default `max_tries = 5`. -/
def read_status (cfg : SyringeConfig) (attempts : List AttemptOutcome) :
    Option MotionStatus :=
  readStatusLoop cfg 5 attempts

/-- Whether one transaction outcome passes the response validation. -/
def attemptValid (cfg : SyringeConfig) : AttemptOutcome → Bool
  | .transportError _ => false
  | .response resp => validStatusResponse cfg.address resp

theorem readStatusLoop_take (cfg : SyringeConfig) :
    ∀ (n : Nat) (attempts : List AttemptOutcome),
      readStatusLoop cfg n attempts = readStatusLoop cfg n (attempts.take n) := by
  intro n
  induction n with
  | zero => intro attempts; rfl
  | succ m ih =>
      intro attempts
      cases attempts with
      | nil => rfl
      | cons a rest =>
          cases a with
          | transportError msg => simpa [readStatusLoop] using ih rest
          | response resp =>
              by_cases hv : validStatusResponse cfg.address resp
              · simp [readStatusLoop, hv]
              · simpa [readStatusLoop, hv] using ih rest

theorem readStatusLoop_all_invalid (cfg : SyringeConfig) :
    ∀ (n : Nat) (attempts : List AttemptOutcome),
      (∀ a ∈ attempts.take n, attemptValid cfg a = false) →
      readStatusLoop cfg n attempts = none := by
  intro n
  induction n with
  | zero => intro attempts _; rfl
  | succ m ih =>
      intro attempts hall
      cases attempts with
      | nil => rfl
      | cons a rest =>
          have ha : attemptValid cfg a = false :=
            hall a (by rw [List.take_succ_cons]; exact List.mem_cons_self _ _)
          have hrest : ∀ x ∈ rest.take m, attemptValid cfg x = false :=
            fun x hx =>
              hall x (by rw [List.take_succ_cons]; exact List.mem_cons_of_mem _ hx)
          cases a with
          | transportError msg => simpa [readStatusLoop] using ih rest hrest
          | response resp =>
              have hv : validStatusResponse cfg.address resp = false := ha
              simpa [readStatusLoop, hv] using ih rest hrest

theorem readStatusLoop_sound (cfg : SyringeConfig) :
    ∀ (n : Nat) (attempts : List AttemptOutcome) (st : MotionStatus),
      readStatusLoop cfg n attempts = some st →
      ∃ resp, AttemptOutcome.response resp ∈ attempts.take n
        ∧ validStatusResponse cfg.address resp = true
        ∧ st = decodeStatus cfg resp := by
  intro n
  induction n with
  | zero => intro attempts st h; cases h
  | succ m ih =>
      intro attempts st h
      cases attempts with
      | nil => cases h
      | cons a rest =>
          cases a with
          | transportError msg =>
              obtain ⟨r, hr, hv, hd⟩ := ih rest st (by simpa [readStatusLoop] using h)
              exact ⟨r, by rw [List.take_succ_cons]; exact List.mem_cons_of_mem _ hr, hv, hd⟩
          | response resp =>
              by_cases hv : validStatusResponse cfg.address resp
              · refine ⟨resp,
                  by rw [List.take_succ_cons]; exact List.mem_cons_self _ _, hv, ?_⟩
                rw [readStatusLoop] at h
                rw [if_pos hv] at h
                exact (Option.some.injEq _ _ ▸ h).symm
              · obtain ⟨r, hr, hvr, hd⟩ := ih rest st (by simpa [readStatusLoop, hv] using h)
                exact ⟨r, by rw [List.take_succ_cons]; exact List.mem_cons_of_mem _ hr,
                  hvr, hd⟩

/-- **C7** — For every status poll: (i) the outcome depends only on the
first 5 transaction attempts; (ii) when the first 5 attempts all fail
(transport error, wrong length, wrong header, or failing checksum) the
poll returns `None` ("unavailable") rather than decoded telemetry;
(iii) whenever the poll returns a decoded status, it is the decode of a
response among the first 5 attempts that passed every validation check —
a malformed response is never returned. -/
theorem read_status_retry_contract (cfg : SyringeConfig)
    (attempts : List AttemptOutcome) :
    read_status cfg attempts = read_status cfg (attempts.take 5)
      ∧ ((∀ a ∈ attempts.take 5, attemptValid cfg a = false) →
          read_status cfg attempts = none)
      ∧ (∀ st, read_status cfg attempts = some st →
          ∃ resp, AttemptOutcome.response resp ∈ attempts.take 5
            ∧ validStatusResponse cfg.address resp = true
            ∧ st = decodeStatus cfg resp) := by
  refine ⟨?_, ?_, ?_⟩
  · exact readStatusLoop_take cfg 5 attempts
  · exact readStatusLoop_all_invalid cfg 5 attempts
  · exact fun st h => readStatusLoop_sound cfg 5 attempts st h

/-- Witness for `read_status_retry_contract`: five transport errors in a
row yield "unavailable". -/
theorem read_status_retry_contract_witness :
    read_status defaultSyringeConfig
        (List.replicate 5 (AttemptOutcome.transportError "serial open failed")) = none :=
  (read_status_retry_contract defaultSyringeConfig
      (List.replicate 5 (AttemptOutcome.transportError "serial open failed"))).2.1
    (by decide)

/-! ## Device controller (domain/controller.py) -/

/-- The Python exception classes the embedded controller paths raise. -/
inductive PyError where
  | runtimeError (msg : String)
  | valueError (msg : String)
  | attributeError (msg : String)
  | unboundLocalError (msg : String)
deriving DecidableEq

/-- The travel-limit fields (`min_mm`, `max_mm`) of an `AxisConfig`. -/
structure AxisLimits where
  min_mm : Option ℚ
  max_mm : Option ℚ

/-- The `DeviceState` dataclass fields the verified transitions touch.
(`pressure_bar`, `flow_lpm`, `total_volume_l` and `logs` are filled from
I/O snapshots in `get_status` only; `syringe_busy`/`syringe_volume_ml`
are owned by the live poller; neither participates in the claims.) -/
structure DeviceState where
  state : String
  current_sequence : Option String
  sequence_step : Option String
  last_error : Option String
  stop_requested : Bool
  relay_states : Nat → Bool
  rotary_port : Option Nat
  syringe_target_ml : Option ℚ
  x_target_mm : Option ℚ
  z_target_mm : Option ℚ
  x_homed : Bool
  z_homed : Bool

/-- The controller-owned mutable pieces the claims touch: the state
snapshot, the `_stop_event`, the single-worker gate
(`_sequence_thread and _sequence_thread.is_alive()`), the relay/rotary
UI caches, the `_log_buffer`, and the two axis travel-limit configs. -/
structure Controller where
  state : DeviceState
  stop_event : Bool
  sequence_thread_alive : Bool
  relay_states : Nat → Bool
  rotary_port : Option Nat
  log : List String
  vertical_limits : AxisLimits
  horizontal_limits : AxisLimits

/-- `_append_log`: append to the bounded buffer, keeping the last 100
entries (`self._log_buffer[-100:]`). -/
def appendLog (c : Controller) (message : String) : Controller :=
  let buffer := c.log ++ [message]
  { c with
      log := if 100 < buffer.length then buffer.drop (buffer.length - 100) else buffer }

/-- A controller as `__init__` leaves it (with the default
`DeviceConfig` limits): IDLE, no sequence, no error, stop flag clear,
every relay channel cached off, no rotary port, no worker alive. -/
def ctrl0 : Controller :=
  { state :=
      { state := "IDLE"
        current_sequence := none
        sequence_step := none
        last_error := none
        stop_requested := false
        relay_states := fun _ => false
        rotary_port := none
        syringe_target_ml := none
        x_target_mm := none
        z_target_mm := none
        x_homed := false
        z_homed := false }
    stop_event := false
    sequence_thread_alive := false
    relay_states := fun _ => false
    rotary_port := none
    log := []
    vertical_limits := { min_mm := some 0, max_mm := some 33 }
    horizontal_limits := { min_mm := some 0, max_mm := none } }

/-- `start_sequence(sequence_name)`: the single-operation gate
(`self._sequence_thread and self._sequence_thread.is_alive()`) is
checked first and raises before any state write; otherwise the state
becomes RUNNING with the sequence name, the error/stop/step fields are
reset, the stop event is cleared and a worker thread is spawned. -/
def start_sequence (c : Controller) (sequence_name : String) :
    Controller × Except PyError Unit :=
  if c.sequence_thread_alive then
    (c, .error (.runtimeError "A sequence is already running"))
  else
    ({ c with
        state := { c.state with
          state := "RUNNING"
          current_sequence := some sequence_name
          last_error := none
          stop_requested := false
          sequence_step := none }
        stop_event := false
        sequence_thread_alive := true },
     .ok ())

/-- `home_all()`: same single-operation gate as `start_sequence`
(raising before any state write), then RUNNING with sequence name
`"homing"` and step `"Preparing outputs"`, and a homing worker. -/
def home_all (c : Controller) : Controller × Except PyError Unit :=
  if c.sequence_thread_alive then
    (c, .error (.runtimeError "Another operation is already running"))
  else
    ({ c with
        state := { c.state with
          state := "RUNNING"
          current_sequence := some "homing"
          last_error := none
          stop_requested := false
          sequence_step := some "Preparing outputs" }
        stop_event := false
        sequence_thread_alive := true },
     .ok ())

/-- `stop_sequence()`: set the stop event, then (under the state lock)
set `stop_requested`, flip the state to ERROR with the descriptive
message "Operation stopped", and clear the sequence fields. -/
def stop_sequence (c : Controller) : Controller :=
  { c with
      stop_event := true
      state := { c.state with
        stop_requested := true
        state := "ERROR"
        last_error := some "Operation stopped"
        current_sequence := none
        sequence_step := none } }

/-- The completion path of the `_run_sequence` worker (its
`except`/`else`/`finally` blocks) once the sequence body has finished:
`body_exc` is the exception message the body escaped with (`none` when
it returned normally — as it does after a stop, because the sequence
swallows `SequenceAbort`).  On exception: ERROR with the message; on
normal return: ERROR + "Sequence stopped" when the stop event is set,
else IDLE.  The `finally` block clears `current_sequence`,
`sequence_step` and `stop_requested` together, then clears the stop
event; the worker thread dies. -/
def run_sequence_finish (c : Controller) (body_exc : Option String) : Controller :=
  let s1 :=
    match body_exc with
    | some msg => { c.state with state := "ERROR", last_error := some msg }
    | none =>
        { c.state with
            state := if c.stop_event then "ERROR" else "IDLE"
            last_error := if c.stop_event then some "Sequence stopped" else none }
  { c with
      state := { s1 with
        current_sequence := none
        sequence_step := none
        stop_requested := false }
      stop_event := false
      sequence_thread_alive := false }

/-- `_set_relay(channel, enabled, allow_when_running)`: reject while a
sequence is RUNNING unless called through the in-sequence adapter; on a
hardware acknowledgement (`ack` = the Bool `relays.on/off` returned)
update the relay cache for that channel and mirror it into the state
snapshot; an unacknowledged write changes nothing and returns False. -/
def set_relay_internal (c : Controller) (channel : Nat) (enabled : Bool)
    (ack : Bool) (allow_when_running : Bool) : Controller × Except PyError Bool :=
  if c.state.state = "RUNNING" ∧ allow_when_running = false then
    (c, .error (.runtimeError "Relays locked while a sequence is running"))
  else if ack then
    let cache := fun ch => if ch = channel then enabled else c.relay_states ch
    ({ c with
        relay_states := cache
        state := { c.state with relay_states := cache } },
     .ok true)
  else (c, .ok false)

/-- `set_all_relays(enabled)`: manual-control gate, issue the board's
all-on/all-off command (`ack` its result), log, and on acknowledgement
set every cached channel 1..8 to `enabled` and mirror the cache. -/
def set_all_relays (c : Controller) (enabled : Bool) (ack : Bool) :
    Controller × Except PyError Bool :=
  if c.state.state = "RUNNING" then
    (c, .error (.runtimeError "Manual control locked while a sequence is running"))
  else
    let c1 := appendLog c ("[Relay] ALL " ++ (if enabled then "ON" else "OFF"))
    if ack then
      let cache := fun ch =>
        if 1 ≤ ch ∧ ch ≤ 8 then enabled else c1.relay_states ch
      ({ c1 with
          relay_states := cache
          state := { c1.state with relay_states := cache } },
       .ok true)
    else (c1, .ok false)

/-! ### Horizontal-axis safety interlock
    (`_assert_horizontal_allowed`, `_read_vertical_position_mm`,
    `move_axis`, `home_axis`) -/

/-- The `vertical_guard_mm` attribute of the horizontal `AxisConfig`,
as bound by `infra/config.py`: the dataclass declares exactly the fields
`port`, `address`, `baudrate`, `steps_per_ml`, `velocity_calib`,
`steps_per_mm`, `min_mm`, `max_mm`, `timeout` — `vertical_guard_mm` is
not among them, so the attribute is absent (outer `none`); were the
dataclass to bind it, the inner `Option ℚ` would be its
`Optional[float]` value. -/
def verticalGuardAttr : Option (Option ℚ) := none

/-- The interlock comparison of `_assert_horizontal_allowed`
(lines 512–520, reached only when the guard attribute read succeeds):
no configured guard → allowed; unknown vertical position → locked with
a descriptive error; position strictly above the guard → locked; at or
below the guard → allowed. -/
def interlockCheck (guard : Option ℚ) (vertical_read : Option ℚ) :
    Except PyError Unit :=
  match guard with
  | none => .ok ()
  | some g =>
      match vertical_read with
      | none =>
          .error (.runtimeError
            "Horizontal axis locked: vertical axis position unavailable")
      | some vpos =>
          if g < vpos then
            .error (.runtimeError
              "Horizontal axis locked: vertical axis above limit")
          else .ok ()

/-- `_read_vertical_position_mm`: calls
`self.vertical_axis.read_position_mm()` inside `try/except`, returning
`None` on any exception.  `AxisDriver` (hardware/axis_driver.py)
defines no method `read_position_mm` (its members are `config`, `name`,
`ready`, `connect`, `home`, `move_mm`), so the call raises
`AttributeError`, is caught, and the helper always returns `None`. -/
def read_vertical_position_mm : Option ℚ := none

/-- `_assert_horizontal_allowed`: its first statement is
`guard = self.config.horizontal_axis.vertical_guard_mm`.  Because the
`AxisConfig` dataclass binds no such attribute
(`verticalGuardAttr = none`), the access raises `AttributeError` before
the interlock comparison is reached. -/
def assert_horizontal_allowed (vertical_read : Option ℚ) : Except PyError Unit :=
  match verticalGuardAttr with
  | none =>
      .error (.attributeError
        "AxisConfig object has no attribute vertical_guard_mm")
  | some guard => interlockCheck guard vertical_read

/-- Python `str.upper()` as applied to the axis arguments (ASCII). -/
def str_upper (s : String) : String := String.mk (s.data.map Char.toUpper)

/-- `DeviceController._clamp(value, min_v, max_v)`. -/
def clampPos (value : ℚ) (min_v max_v : Option ℚ) : ℚ :=
  let v1 := match min_v with | some m => max m value | none => value
  match max_v with | some m => min m v1 | none => v1

/-- `move_axis(axis, position_mm, rpm)`: a manual move is rejected while
a user sequence is RUNNING (`current_sequence not in {None, "homing"}`);
`axis_norm = axis.upper()`; for `Z` clamp into the vertical travel
limits, log, record the target, and move; for `X` run
`_assert_horizontal_allowed()` first, then clamp/log/record/move; any
other axis is a `ValueError`.  The blocking `driver.move_mm` call is
abstracted by `moveOutcome` (the log line's float formatting is
abstracted to a fixed prefix). -/
def move_axis (c : Controller) (axis : String) (position_mm rpm : ℚ)
    (moveOutcome : Except PyError Unit) : Controller × Except PyError Unit :=
  if c.state.state = "RUNNING" ∧ c.state.current_sequence ≠ none
      ∧ c.state.current_sequence ≠ some "homing" then
    (c, .error (.runtimeError "Manual moves locked while a sequence is running"))
  else if str_upper axis = "Z" then
    let target := clampPos position_mm c.vertical_limits.min_mm c.vertical_limits.max_mm
    let c1 := appendLog c "[Axis Vertical] move"
    let c2 := { c1 with state := { c1.state with z_target_mm := some target } }
    (c2, moveOutcome)
  else if str_upper axis = "X" then
    match assert_horizontal_allowed read_vertical_position_mm with
    | .error e => (c, .error e)
    | .ok () =>
        let target :=
          clampPos position_mm c.horizontal_limits.min_mm c.horizontal_limits.max_mm
        let c1 := appendLog c "[Axis Horizontal] move"
        let c2 := { c1 with state := { c1.state with x_target_mm := some target } }
        (c2, moveOutcome)
  else (c, .error (.valueError "axis must be X or Z"))

/-- `_home_vertical_axis`: connect/home the vertical drive (both folded
into `homeOutcome`), then set `z_homed` and log. -/
def home_vertical_axis (c : Controller) (homeOutcome : Except PyError Unit) :
    Controller × Except PyError Unit :=
  match homeOutcome with
  | .error e => (c, .error e)
  | .ok () =>
      let c1 := { c with state := { c.state with z_homed := true } }
      (appendLog c1 "Vertical axis homed", .ok ())

/-- `_home_horizontal_axis`: `_assert_horizontal_allowed()` runs first;
then connect/home (folded into `homeOutcome`), set `x_homed`, log. -/
def home_horizontal_axis (c : Controller) (homeOutcome : Except PyError Unit) :
    Controller × Except PyError Unit :=
  match assert_horizontal_allowed read_vertical_position_mm with
  | .error e => (c, .error e)
  | .ok () =>
      match homeOutcome with
      | .error e => (c, .error e)
      | .ok () =>
          let c1 := { c with state := { c.state with x_homed := true } }
          (appendLog c1 "Horizontal axis homed", .ok ())

/-- Lines 231–239 of `home_axis` (dead code, see `home_axis`): the
running-sequence gate, `axis_norm = axis.upper()`, and the Z/X
dispatch. -/
def home_axis_rest (c : Controller) (axis : String)
    (homeOutcome : Except PyError Unit) : Controller × Except PyError Unit :=
  if c.state.state = "RUNNING" ∧ c.state.current_sequence ≠ none
      ∧ c.state.current_sequence ≠ some "homing" then
    (c, .error (.runtimeError "Manual moves locked while a sequence is running"))
  else if str_upper axis = "Z" then home_vertical_axis c homeOutcome
  else if str_upper axis = "X" then home_horizontal_axis c homeOutcome
  else (c, .error (.valueError "axis must be X or Z"))

/-- `home_axis(axis)`: its first statement,
`self._log(f"[Axis {axis_norm}] homing (manual)")`, reads the local
variable `axis_norm`, which is first assigned only two statements later
(`axis_norm = axis.upper()`).  A Python local read before its first
assignment raises `UnboundLocalError` at the read — before `_log` runs,
before the gate, and before any hardware action — so the `some` branch
below (the rest of the body) is dead code on every input. -/
def home_axis (c : Controller) (axis : String)
    (homeOutcome : Except PyError Unit) : Controller × Except PyError Unit :=
  match (none : Option String) with
  | some axis_norm =>
      home_axis_rest
        (appendLog c ("[Axis " ++ axis_norm ++ "] homing (manual)"))
        axis homeOutcome
  | none =>
      (c, .error (.unboundLocalError
        "local variable axis_norm referenced before assignment"))

/-! ### Controller theorems -/

/-- **C1** (the code evaluated at the failing input) — on a freshly
constructed controller with the default configuration, every horizontal
move (`move_axis("X", …)`, any position/rpm) and every horizontal homing
(`_home_horizontal_axis`) fails with
`AttributeError: AxisConfig object has no attribute vertical_guard_mm`,
raised by the first statement of `_assert_horizontal_allowed` before the
interlock comparison, before any state change and before any hardware
action: the claim's "proceeds when the vertical position is at or below
the guard" branch is unreachable. -/
theorem horizontal_motion_attribute_error (position_mm rpm : ℚ)
    (moveOutcome homeOutcome : Except PyError Unit) :
    move_axis ctrl0 "X" position_mm rpm moveOutcome
        = (ctrl0, .error (.attributeError
            "AxisConfig object has no attribute vertical_guard_mm"))
      ∧ home_horizontal_axis ctrl0 homeOutcome
        = (ctrl0, .error (.attributeError
            "AxisConfig object has no attribute vertical_guard_mm")) := by
  constructor
  · unfold move_axis
    rw [if_neg (by decide), if_neg (by decide), if_pos (by decide)]
    rfl
  · rfl

/-- **C2** — `stop_sequence()` immediately flips the state to ERROR with
the descriptive message "Operation stopped"; when the running worker
subsequently completes (normally — as it does after a stop, because the
sequences swallow `SequenceAbort` — or with an exception carrying a
non-empty message), the final state has `run_state = ERROR`,
`current_sequence = none`, `sequence_step = none`,
`stop_requested = false`, and a non-empty `last_error`. -/
theorem stop_sequence_then_finish (c : Controller) (body_exc : Option String)
    (hmsg : ∀ m, body_exc = some m → m ≠ "") :
    (stop_sequence c).state.state = "ERROR"
      ∧ (stop_sequence c).state.last_error = some "Operation stopped"
      ∧ (run_sequence_finish (stop_sequence c) body_exc).state.state = "ERROR"
      ∧ (run_sequence_finish (stop_sequence c) body_exc).state.current_sequence = none
      ∧ (run_sequence_finish (stop_sequence c) body_exc).state.sequence_step = none
      ∧ (run_sequence_finish (stop_sequence c) body_exc).state.stop_requested = false
      ∧ ∃ e, (run_sequence_finish (stop_sequence c) body_exc).state.last_error = some e
          ∧ e ≠ "" := by
  cases body_exc with
  | none =>
      exact ⟨rfl, rfl, rfl, rfl, rfl, rfl, "Sequence stopped", rfl, by decide⟩
  | some m =>
      exact ⟨rfl, rfl, rfl, rfl, rfl, rfl, m, rfl, hmsg m rfl⟩

/-- Witness for `stop_sequence_then_finish`: a fresh controller, stop
followed by normal worker completion. -/
theorem stop_sequence_then_finish_witness :
    (run_sequence_finish (stop_sequence ctrl0) none).state.state = "ERROR"
      ∧ (run_sequence_finish (stop_sequence ctrl0) none).state.current_sequence = none
      ∧ (run_sequence_finish (stop_sequence ctrl0) none).state.stop_requested = false :=
  ⟨(stop_sequence_then_finish ctrl0 none (fun m h => nomatch h)).2.2.1,
   (stop_sequence_then_finish ctrl0 none (fun m h => nomatch h)).2.2.2.1,
   (stop_sequence_then_finish ctrl0 none (fun m h => nomatch h)).2.2.2.2.2.1⟩

/-- **C3** — while a sequence/homing worker is still alive, both
`start_sequence` and `home_all` raise a precondition error immediately
(not queued) and return the controller — every device-state field
included — exactly unchanged. -/
theorem second_start_rejected (c : Controller) (sequence_name : String)
    (h : c.sequence_thread_alive = true) :
    start_sequence c sequence_name
        = (c, .error (.runtimeError "A sequence is already running"))
      ∧ home_all c
        = (c, .error (.runtimeError "Another operation is already running")) := by
  unfold start_sequence home_all
  rw [h]
  exact ⟨rfl, rfl⟩

/-- A controller with a live sequence worker. -/
def ctrlBusy : Controller := { ctrl0 with sequence_thread_alive := true }

/-- Witness for `second_start_rejected` at a concrete busy controller. -/
theorem second_start_rejected_witness :
    start_sequence ctrlBusy "sequence1"
        = (ctrlBusy, .error (.runtimeError "A sequence is already running"))
      ∧ home_all ctrlBusy
        = (ctrlBusy, .error (.runtimeError "Another operation is already running")) :=
  second_start_rejected ctrlBusy "sequence1" rfl

/-- A controller whose relay channel 3 is cached ON. -/
def ctrlRelay3On : Controller :=
  { ctrl0 with relay_states := fun ch => ch == 3 }

/-- **C9, counterexample** — with channel 3 cached ON beforehand, an
acknowledged `on(3)` followed by an acknowledged `off(3)` leaves the
cached state `false`, not the pre-`on` value `true`: the pair does not
restore the prior cached state. -/
theorem relay_on_off_not_restore :
    (set_relay_internal (set_relay_internal ctrlRelay3On 3 true true true).1
        3 false true true).1.relay_states 3 = false
      ∧ ctrlRelay3On.relay_states 3 = true :=
  ⟨rfl, rfl⟩

theorem set_relay_ack (c : Controller) (channel : Nat) (enabled : Bool) :
    set_relay_internal c channel enabled true true
      = ({ c with
            relay_states := fun ch =>
              if ch = channel then enabled else c.relay_states ch
            state := { c.state with relay_states := fun ch =>
              if ch = channel then enabled else c.relay_states ch } },
         .ok true) := by
  unfold set_relay_internal
  rw [if_neg (by simp)]
  rfl

/-- **C9 (amended)** — an acknowledged `on(ch)` followed by an
acknowledged `off(ch)` always leaves channel `ch` cached `false`; this
equals the pre-`on` cached value exactly when the channel was cached off
beforehand (as every channel is in the freshly initialised cache); and
an acknowledged `all_off` (`set_all_relays false`) outside a running
sequence sets every cached channel 1..8 to `false`. -/
theorem relay_on_off_and_all_off (c : Controller) (ch : Nat) :
    (set_relay_internal (set_relay_internal c ch true true true).1
        ch false true true).1.relay_states ch = false
      ∧ (c.relay_states ch = false →
          (set_relay_internal (set_relay_internal c ch true true true).1
              ch false true true).1.relay_states ch = c.relay_states ch)
      ∧ (∀ k, 1 ≤ k → k ≤ 8 → c.state.state ≠ "RUNNING" →
          (set_all_relays c false true).1.relay_states k = false) := by
  refine ⟨?_, ?_, ?_⟩
  · rw [set_relay_ack, set_relay_ack]
    simp
  · intro hc
    rw [set_relay_ack, set_relay_ack, hc]
    simp
  · intro k hk1 hk8 hrun
    unfold set_all_relays
    rw [if_neg hrun]
    exact if_pos ⟨hk1, hk8⟩

/-- Witness for `relay_on_off_and_all_off` on a fresh controller:
the on/off pair restores channel 3 (cached off initially), and
`all_off` clears channel 5. -/
theorem relay_on_off_and_all_off_witness :
    (set_relay_internal (set_relay_internal ctrl0 3 true true true).1
        3 false true true).1.relay_states 3 = ctrl0.relay_states 3
      ∧ (set_all_relays ctrl0 false true).1.relay_states 5 = false :=
  ⟨(relay_on_off_and_all_off ctrl0 3).2.1 rfl,
   (relay_on_off_and_all_off ctrl0 3).2.2 5 (by decide) (by decide) (by decide)⟩

/-- **C10** — for every input axis string, controller state and hardware
outcome, `home_axis` raises `UnboundLocalError` (its first log statement
reads the local `axis_norm` before its assignment) and performs no state
change, no log entry, and no hardware action: no axis can be homed
through this entry point. -/
theorem home_axis_unbound_local (c : Controller) (axis : String)
    (homeOutcome : Except PyError Unit) :
    home_axis c axis homeOutcome
      = (c, .error (.unboundLocalError
          "local variable axis_norm referenced before assignment")) := rfl

end CMAF
